import Mathlib

/-!
# Verification of the bulk tag-mutation orchestrator

Shallow embedding of the tagger pipeline: query building, paginated
collection, idempotency filtering, pre-run summaries, job-context
decoding, and result reconciliation.  JavaScript numbers are modelled as
unbounded integers (`Int`), exact for the integral values these code
paths manipulate; where a `parseInt` can produce `NaN` (the job-context
decode) the value is modelled as `Option Int`, with `none` standing for
`NaN`.  JavaScript string operations (`trim`, `toLowerCase`) are
modelled by structurally recursive functions over the character list,
which agree with them on the ASCII inputs exercised here.
-/

namespace Tagger

/-- An entity snapshot as fetched from the platform
(`Product` in `types.ts`). -/
structure Product where
  id : String
  title : String
  handle : String
  productType : String
  tags : List String
deriving Repr, DecidableEq

/-- One line of the submitted batch: the payload of
`JSON.stringify({ input: { id, tags } })` built by the action. -/
structure MutationRecord where
  id : String
  tags : List String
deriving Repr, DecidableEq

/-- The `Summary` record of `types.ts`.  `didNotHaveTag` and `action`
are optional fields, absent (`none`) unless the remove branch sets
them. -/
structure Summary where
  updated : Int
  alreadyHadTag : Int
  didNotHaveTag : Option Int
  failed : Int
  total : Int
  tag : String
  action : Option String
deriving Repr, DecidableEq

/-- `BulkOperationStatus` of `types.ts`: `objectCount` comes from a
`parseInt`, hence `Option Int` (`none` = `NaN`); `url` is nullable. -/
structure BulkOperationStatus where
  id : String
  status : String
  objectCount : Option Int
  url : Option String
deriving Repr, DecidableEq

/-- `FilterState` of `types.ts`. -/
structure FilterState where
  keyword : String
  productType : String
  collectionHandle : String
deriving Repr, DecidableEq

/-- Model of `String.prototype.toLowerCase` (exact on ASCII tags):
lower-case every character. -/
def jsLower (s : String) : String := String.mk (s.data.map Char.toLower)

/-- Model of `String.prototype.trim`: drop whitespace from both ends. -/
def jsTrim (s : String) : String :=
  String.mk
    (((s.data.dropWhile Char.isWhitespace).reverse.dropWhile
      Char.isWhitespace).reverse)

/-- The apostrophe character stripped or escaped by the query builder. -/
def singleQuote : Char := Char.ofNat 39

/-- The double-quote character stripped from keyword searches. -/
def doubleQuote : Char := Char.ofNat 34

/-- `keyword.trim().replace(/['"]/g, "")`: drop every quote character. -/
def stripQuoteChars (s : String) : String :=
  String.mk (s.data.filter fun c => !(c == singleQuote || c == doubleQuote))

/-- `.replace(/'/g, "\\'")`: escape each single quote with a backslash. -/
def escapeSingleQuotes (s : String) : String :=
  s.replace (String.mk [singleQuote]) (String.mk [Char.ofNat 92, singleQuote])

/-- `buildProductQuery` from `queryBuilder.ts`: each non-blank filter
field is trimmed, escaped, rendered as a clause, and the clauses are
joined with " AND "; no clause yields `none` (`undefined`). -/
def buildProductQuery (f : FilterState) : Option String :=
  let keywordParts : List String :=
    if jsTrim f.keyword ≠ "" then
      ["title:*" ++ stripQuoteChars (jsTrim f.keyword) ++ "*"]
    else []
  let typeParts : List String :=
    if jsTrim f.productType ≠ "" then
      ["product_type:" ++ String.mk [singleQuote]
        ++ escapeSingleQuotes (jsTrim f.productType) ++ String.mk [singleQuote]]
    else []
  let collectionParts : List String :=
    if jsTrim f.collectionHandle ≠ "" then
      ["collection:" ++ String.mk [singleQuote]
        ++ escapeSingleQuotes (jsTrim f.collectionHandle) ++ String.mk [singleQuote]]
    else []
  let queryParts := keywordParts ++ typeParts ++ collectionParts
  if queryParts.length > 0 then some (String.intercalate " AND " queryParts)
  else none

/-! ## Idempotency filter and pre-run summaries (`action.server.ts`) -/

/-- `product.tags.some((tag) => tag.toLowerCase() === TAG.toLowerCase())`. -/
def hasTagCI (tags : List String) (TAG : String) : Bool :=
  tags.any fun t => jsLower t == jsLower TAG

/-- Apply branch: products whose tag list does not already contain the
target tag case-insensitively. -/
def productsToUpdateApply (allProducts : List Product) (TAG : String) :
    List Product :=
  allProducts.filter fun p => !hasTagCI p.tags TAG

/-- Apply branch: one mutation record per remaining product, appending
the target tag at the end of its existing tag list. -/
def jsonlLinesApply (allProducts : List Product) (TAG : String) :
    List MutationRecord :=
  (productsToUpdateApply allProducts TAG).map fun p =>
    { id := p.id, tags := p.tags ++ [TAG] }

/-- The apply branch's `preRunSummary`. -/
def preRunSummaryApply (allProducts : List Product) (TAG : String) : Summary :=
  let totalFiltered : Int := allProducts.length
  let totalProcessed : Int := (jsonlLinesApply allProducts TAG).length
  { updated := totalProcessed
    alreadyHadTag := totalFiltered - totalProcessed
    didNotHaveTag := none
    failed := 0
    total := totalFiltered
    tag := TAG
    action := none }

/-- Remove branch: products that actually carry the target tag
case-insensitively. -/
def productsToUpdateRemove (allProducts : List Product) (TAG : String) :
    List Product :=
  allProducts.filter fun p => hasTagCI p.tags TAG

/-- Remove branch: one mutation record per remaining product, filtering
the target tag out of its existing tag list. -/
def jsonlLinesRemove (allProducts : List Product) (TAG : String) :
    List MutationRecord :=
  (productsToUpdateRemove allProducts TAG).map fun p =>
    { id := p.id, tags := p.tags.filter fun t => !(jsLower t == jsLower TAG) }

/-- The remove branch's `preRunSummary`. -/
def preRunSummaryRemove (allProducts : List Product) (TAG : String) : Summary :=
  let totalFiltered : Int := allProducts.length
  let totalProcessed : Int := (jsonlLinesRemove allProducts TAG).length
  { updated := totalProcessed
    alreadyHadTag := 0
    didNotHaveTag := some (totalFiltered - totalProcessed)
    failed := 0
    total := totalFiltered
    tag := TAG
    action := some "remove" }

/-- The entity states after the bulk job of an apply run has run: the
selected products carry their submitted tag lists, the excluded ones
are unchanged. -/
def applyUpdatedState (allProducts : List Product) (TAG : String) :
    List Product :=
  allProducts.map fun p =>
    if hasTagCI p.tags TAG then p else { p with tags := p.tags ++ [TAG] }

/-! ## Result reconciler (`processBulkOperationResults`) -/

/-- Outcome of `JSON.parse` on one line of the bulk-result stream:
either the line is malformed JSON, or it parsed to a record with a
(possibly truthy) root `errors` field and a `productUpdate.userErrors`
list of the given length (0 when the path is absent). -/
inductive ResultLine where
  | malformed
  | parsed (hasRootErrors : Bool) (userErrorsLength : Nat)
deriving Repr, DecidableEq

/-- Whether a result line increments `failedMutations`: malformed lines
fail, parsed lines fail exactly when they carry root-level errors or a
non-empty `userErrors` list. -/
def lineFailed : ResultLine → Bool
  | .malformed => true
  | .parsed hasRootErrors userErrorsLength =>
      hasRootErrors || decide (0 < userErrorsLength)

/-- Detect a malformed line. -/
def ResultLine.isMalformed : ResultLine → Bool
  | .malformed => true
  | .parsed _ _ => false

/-- The reconciliation loop: fold over the result lines accumulating
`(successfulMutations, failedMutations)` from `(0, 0)`. -/
def countMutations (lines : List ResultLine) : Nat × Nat :=
  lines.foldl
    (fun acc l => if lineFailed l then (acc.1, acc.2 + 1) else (acc.1 + 1, acc.2))
    (0, 0)

/-- `processBulkOperationResults`: `fetchSucceeded` records whether the
result-content fetch succeeded (`fetch` resolved with an OK response and
readable text); `lines` are the parse outcomes of the non-empty lines of
the fetched text.  On success the per-line counts are reconciled with
the carried totals, clamping a negative `alreadyHadTag` to zero; on
fetch failure the fallback summary presumes every submitted record
failed. -/
def processBulkOperationResults (fetchSucceeded : Bool)
    (lines : List ResultLine)
    (totalProductsMatchingFilter totalProductsProcessed : Int)
    (tag : String) : Summary :=
  if fetchSucceeded then
    let counts := countMutations lines
    let successfulMutations : Int := counts.1
    let failedMutations : Int := counts.2
    let totalMutationsAttempted := successfulMutations + failedMutations
    let alreadyHadTag := totalProductsMatchingFilter - totalMutationsAttempted
    { updated := successfulMutations
      alreadyHadTag := if alreadyHadTag < 0 then 0 else alreadyHadTag
      didNotHaveTag := none
      failed := failedMutations
      total := totalProductsMatchingFilter
      tag := tag
      action := none }
  else
    { updated := 0
      alreadyHadTag := totalProductsMatchingFilter - totalProductsProcessed
      didNotHaveTag := none
      failed := totalProductsProcessed
      total := totalProductsMatchingFilter
      tag := tag
      action := none }

/-! ## Paginated collector (`fetchProductsIteratively` in `shopifyApi.ts`) -/

/-- `FETCH_PAGE_LIMIT` from `types.ts`. -/
def FETCH_PAGE_LIMIT : Nat := 250

/-- One successfully decoded page of the `products` connection. -/
structure Page where
  products : List Product
  hasNextPage : Bool
  endCursor : Option String
deriving Repr, DecidableEq

/-- The platform's answer to one page request: a decoded page, or a
failure (network error, GraphQL `errors`, or missing `products` field —
all of which make the loop throw). -/
inductive PageResult where
  | ok (page : Page)
  | err
deriving Repr, DecidableEq

/-- Result of the collection loop.  `outOfResponses` is a model
artifact: the supplied response trace ended while `hasNextPage` still
demanded another fetch, so the trace does not determine the loop's
behaviour. -/
inductive FetchOutcome where
  | ok (products : List Product)
  | error
  | outOfResponses
deriving Repr, DecidableEq

/-- The body of `fetchProductsIteratively`'s `while (hasNextPage)` loop,
consuming one platform response per fetch.  `accLen` is the number of
products accumulated before the current fetch.  Returns the loop's
outcome together with the number of 300 ms pacing delays performed: a
delay happens after a page exactly when `hasNextPage` is still true and
the accumulated product count is a multiple of `FETCH_PAGE_LIMIT`. -/
def fetchRun : List PageResult → Nat → FetchOutcome × Nat
  | [], _ => (.outOfResponses, 0)
  | .err :: _, _ => (.error, 0)
  | .ok page :: rest, accLen =>
      let accLen' := accLen + page.products.length
      let delay : Nat :=
        if page.hasNextPage && accLen' % FETCH_PAGE_LIMIT == 0 then 1 else 0
      if page.hasNextPage then
        let r := fetchRun rest accLen'
        (match r.1 with
         | .ok tail => .ok (page.products ++ tail)
         | o => o,
         delay + r.2)
      else (.ok page.products, delay)

/-- `fetchProductsIteratively`: the complete entity list (or failure)
produced from a trace of page responses. -/
def fetchProductsIteratively (responses : List PageResult) : FetchOutcome :=
  (fetchRun responses 0).1

/-- The number of 300 ms inter-page delays the collection performs. -/
def fetchDelayCount (responses : List PageResult) : Nat :=
  (fetchRun responses 0).2

/-! ## Job-context codec (`stateManager.ts` and `loader.server.ts`) -/

/-- JavaScript `x || d` on a nullable string: the default replaces both
`null` and the empty string. -/
def jsOr (v : Option String) (d : String) : String :=
  match v with
  | some s => if s == "" then d else s
  | none => d

/-- `parseInt(s, 10)`: skip leading whitespace, read an optional sign
and the longest run of decimal digits, ignore the rest; `none` models
`NaN` (no digits). -/
def jsParseInt (s : String) : Option Int :=
  let cs := s.data.dropWhile Char.isWhitespace
  let signAndRest : Int × List Char :=
    match cs with
    | c :: r =>
        if c == Char.ofNat 45 then (-1, r)
        else if c == Char.ofNat 43 then (1, r)
        else (1, c :: r)
    | [] => (1, [])
  let ds := signAndRest.2.takeWhile Char.isDigit
  if ds.isEmpty then none
  else some (signAndRest.1 *
    (ds.foldl (fun n c => n * 10 + (c.toNat - 48)) 0 : Nat))

/-- NaN-propagating subtraction of JavaScript numbers. -/
def jsSub : Option Int → Option Int → Option Int
  | some a, some b => some (a - b)
  | _, _ => none

/-- The query parameters the job-context codec round-trips. -/
structure UrlParams where
  checkStatus : Option String
  totalFiltered : Option String
  totalProcessed : Option String
  appliedTag : Option String
deriving Repr, DecidableEq

/-- The decoded in-flight job context (`bulkOpContext`); the numeric
fields are `parseInt` results, so `none` models `NaN`. -/
structure BulkOpContext where
  totalFiltered : Option Int
  totalProcessed : Option Int
  tag : String
deriving Repr, DecidableEq

/-- A summary as materialized on the client from decoded parameters,
where each numeric field is a JavaScript number that may be `NaN`. -/
structure SummaryJS where
  updated : Option Int
  alreadyHadTag : Option Int
  failed : Option Int
  total : Option Int
  tag : String
deriving Repr, DecidableEq

/-- The slice of `LoaderData` that `getInitialStates` consults. -/
structure LoaderDataView where
  bulkOperationStatus : Option BulkOperationStatus
  finalSummary : Option SummaryJS
deriving Repr, DecidableEq

/-- The triple returned by `getInitialStates`. -/
structure InitialStates where
  initialBulkOpId : Option String
  initialBulkOpContext : Option BulkOpContext
  initialSummary : Option SummaryJS
deriving Repr, DecidableEq

/-- `getInitialStates` from `stateManager.ts`.  `isClient` models
`typeof window !== "undefined"`.  On the client, when the URL says
`checkStatus=true`, the loader reported an operation with a truthy id,
and its status is not terminal, the context is decoded from the URL
parameters (each `parseInt` defaulting its argument to "0", the tag to
"") and a placeholder summary is built from it; otherwise the idle
triple with the loader's final summary is returned. -/
def getInitialStates (isClient : Bool) (loaderData : LoaderDataView)
    (urlParams : UrlParams) : InitialStates :=
  if !isClient then
    { initialBulkOpId := none
      initialBulkOpContext := none
      initialSummary := loaderData.finalSummary }
  else
    let isPolling := urlParams.checkStatus == some "true"
    match loaderData.bulkOperationStatus with
    | some status =>
        if isPolling && status.id != "" && status.status != "COMPLETED"
            && status.status != "FAILED" && status.status != "CANCELED" then
          let totalFiltered := jsParseInt (jsOr urlParams.totalFiltered "0")
          let totalProcessed := jsParseInt (jsOr urlParams.totalProcessed "0")
          let appliedTag := jsOr urlParams.appliedTag ""
          { initialBulkOpId := some status.id
            initialBulkOpContext :=
              some { totalFiltered := totalFiltered
                     totalProcessed := totalProcessed
                     tag := appliedTag }
            initialSummary :=
              some { updated := totalProcessed
                     alreadyHadTag := jsSub totalFiltered totalProcessed
                     failed := some 0
                     total := totalFiltered
                     tag := appliedTag } }
        else
          { initialBulkOpId := none
            initialBulkOpContext := none
            initialSummary := loaderData.finalSummary }
    | none =>
        { initialBulkOpId := none
          initialBulkOpContext := none
          initialSummary := loaderData.finalSummary }

/-- The `finalSummary` computed by the loader's `checkStatus` branch
(`loader.server.ts`): the reconciler runs only when the current
operation is `COMPLETED` with a truthy result URL and a truthy
`appliedTag` parameter.  `totalFiltered` and `totalProcessed` are the
already-parsed context parameters. -/
def loaderFinalSummary (bulkOpStatus : Option BulkOperationStatus)
    (fetchSucceeded : Bool) (lines : List ResultLine)
    (totalFiltered totalProcessed : Int) (appliedTag : String) :
    Option Summary :=
  match bulkOpStatus with
  | some st =>
      if st.status == "COMPLETED" && jsOr st.url "" != "" && appliedTag != "" then
        some (processBulkOperationResults fetchSucceeded lines
          totalFiltered totalProcessed appliedTag)
      else none
  | none => none

/-! ## The action (`action.server.ts`) -/

/-- The `ActionData` record returned to the client. -/
structure ActionData where
  success : Bool
  error : Option String
  bulkOperationId : Option String
  preRunSummary : Option Summary
deriving Repr, DecidableEq

/-- The `applyTag` branch after the tag and query checks, parameterized
by the outcomes of the external calls: `fetched` is the result of
`fetchProductsIteratively` (`Except.error` carries the thrown message),
`submit` the outcome of the staged-upload/upload/bulk-run sequence
(`Except.ok` the bulk operation id, `Except.error` the thrown message).
Every throw inside the `try` is caught and wrapped with the
"Failed to start bulk operation: " prefix. -/
def applyTagBranch (fetched : Except String (List Product)) (TAG : String)
    (submit : Except String String) : ActionData :=
  match fetched with
  | .error msg =>
      { success := false
        error := some ("Failed to start bulk operation: " ++ msg)
        bulkOperationId := none
        preRunSummary := none }
  | .ok allProducts =>
      if allProducts.length == 0 then
        { success := false
          error := some "No products found matching your filters to tag."
          bulkOperationId := none
          preRunSummary := none }
      else
        let preRunSummary := preRunSummaryApply allProducts TAG
        if (jsonlLinesApply allProducts TAG).length == 0 then
          { success := true
            error := none
            bulkOperationId := none
            preRunSummary := some preRunSummary }
        else
          match submit with
          | .ok bulkOperationId =>
              { success := true
                error := none
                bulkOperationId := some bulkOperationId
                preRunSummary := some preRunSummary }
          | .error msg =>
              { success := false
                error := some ("Failed to start bulk operation: " ++ msg)
                bulkOperationId := none
                preRunSummary := none }

/-- The `removeTag` branch, symmetric to `applyTagBranch` with the
remove-side filter, summary, and error prefix. -/
def removeTagBranch (fetched : Except String (List Product)) (TAG : String)
    (submit : Except String String) : ActionData :=
  match fetched with
  | .error msg =>
      { success := false
        error := some ("Failed to start bulk remove operation: " ++ msg)
        bulkOperationId := none
        preRunSummary := none }
  | .ok allProducts =>
      if allProducts.length == 0 then
        { success := false
          error := some "No products found matching your filters."
          bulkOperationId := none
          preRunSummary := none }
      else
        let preRunSummary := preRunSummaryRemove allProducts TAG
        if (jsonlLinesRemove allProducts TAG).length == 0 then
          { success := true
            error := none
            bulkOperationId := none
            preRunSummary := some preRunSummary }
        else
          match submit with
          | .ok bulkOperationId =>
              { success := true
                error := none
                bulkOperationId := some bulkOperationId
                preRunSummary := some preRunSummary }
          | .error msg =>
              { success := false
                error := some ("Failed to start bulk remove operation: " ++ msg)
                bulkOperationId := none
                preRunSummary := none }

/-- The action entry point: validate the tag (`!tagToApply?.trim()`
rejects a missing, empty, or whitespace-only tag before anything else
runs), then dispatch on the intent, check the query, and run the
corresponding branch with `TAG = tagToApply.trim()`. -/
def action (tagToApply : Option String) (actionIntent : String)
    (filters : FilterState) (fetched : Except String (List Product))
    (submit : Except String String) : ActionData :=
  let emptyTag : ActionData :=
    { success := false
      error := some "Tag name cannot be empty."
      bulkOperationId := none
      preRunSummary := none }
  match tagToApply with
  | none => emptyTag
  | some raw =>
      if jsTrim raw == "" then emptyTag
      else
        let TAG := jsTrim raw
        if actionIntent == "applyTag" then
          match buildProductQuery filters with
          | none =>
              { success := false
                error := some "Please apply at least one filter before tagging."
                bulkOperationId := none
                preRunSummary := none }
          | some _ => applyTagBranch fetched TAG submit
        else if actionIntent == "removeTag" then
          match buildProductQuery filters with
          | none =>
              { success := false
                error := some "Please apply at least one filter before removing tags."
                bulkOperationId := none
                preRunSummary := none }
          | some _ => removeTagBranch fetched TAG submit
        else
          { success := false
            error := some "Invalid action"
            bulkOperationId := none
            preRunSummary := none }

/-! ## Helper lemmas -/

/-- The reconciliation fold, started from an arbitrary accumulator,
adds the number of clean lines to the success component and the number
of failing lines to the failure component. -/
theorem countMutations_go (lines : List ResultLine) :
    ∀ a b : Nat,
      lines.foldl
        (fun acc l =>
          if lineFailed l then (acc.1, acc.2 + 1) else (acc.1 + 1, acc.2))
        (a, b)
      = (a + (lines.filter fun l => !lineFailed l).length,
         b + (lines.filter lineFailed).length) := by
  induction lines with
  | nil => intro a b; simp
  | cons hd tl ih =>
      intro a b
      by_cases h : lineFailed hd = true
      · simp [List.foldl_cons, h, ih, List.filter_cons]
        omega
      · simp [List.foldl_cons, h, ih, List.filter_cons]
        omega

/-- `countMutations` counts exactly the clean and the failing lines. -/
theorem countMutations_spec (lines : List ResultLine) :
    countMutations lines
      = ((lines.filter fun l => !lineFailed l).length,
         (lines.filter lineFailed).length) := by
  unfold countMutations
  rw [countMutations_go]
  simp

/-- Every result line is classified: successes and failures add up to
the number of lines. -/
theorem countMutations_sum (lines : List ResultLine) :
    (countMutations lines).1 + (countMutations lines).2 = lines.length := by
  rw [countMutations_spec]
  induction lines with
  | nil => simp
  | cons hd tl ih =>
      by_cases h : lineFailed hd = true
      · simp [List.filter_cons, h]
        omega
      · simp [List.filter_cons, h]
        omega

/-- Malformed lines are a subset of the failing lines. -/
theorem length_filter_malformed_le (lines : List ResultLine) :
    (lines.filter ResultLine.isMalformed).length
      ≤ (lines.filter lineFailed).length := by
  induction lines with
  | nil => simp
  | cons hd tl ih =>
      cases hd with
      | malformed =>
          simp [List.filter_cons, ResultLine.isMalformed, lineFailed]
          omega
      | parsed hre uel =>
          by_cases h : lineFailed (ResultLine.parsed hre uel) = true
          · simp [List.filter_cons, h, ResultLine.isMalformed]
            omega
          · simp [List.filter_cons, h, ResultLine.isMalformed]
            omega

/-! ## Claim theorems -/

/-- C1 (counterexample): the reconciler's invariant
`total = updated + failed + alreadyHadTag` fails when the result
stream's line count exceeds `totalFiltered`, the very case the claim
includes: with `totalFiltered = 0` and a single malformed line, the
clamp makes `alreadyHadTag = 0` while `failed = 1`, so `total = 0`
differs from `updated + failed + alreadyHadTag = 1`. -/
theorem C1_total_invariant_counterexample :
    ¬ ((processBulkOperationResults true [.malformed] 0 0 "sale").total
        = (processBulkOperationResults true [.malformed] 0 0 "sale").updated
          + (processBulkOperationResults true [.malformed] 0 0 "sale").failed
          + (processBulkOperationResults true [.malformed] 0 0 "sale").alreadyHadTag) := by
  decide

/-- C1 (amended): for every successfully fetched result stream whose
line count does not exceed `totalFiltered` — including streams with
malformed lines — the reconciled summary satisfies
`total = updated + failed + alreadyHadTag` exactly; when the line count
exceeds `totalFiltered`, `alreadyHadTag` is clamped to zero and the sum
overshoots `total` by the excess, so the invariant holds only up to that
bound. -/
theorem C1_total_invariant_amended (lines : List ResultLine)
    (totalFiltered totalProcessed : Int) (tag : String)
    (hbound : (lines.length : Int) ≤ totalFiltered) :
    (processBulkOperationResults true lines totalFiltered totalProcessed
        tag).total
      = (processBulkOperationResults true lines totalFiltered totalProcessed
          tag).updated
        + (processBulkOperationResults true lines totalFiltered totalProcessed
            tag).failed
        + (processBulkOperationResults true lines totalFiltered totalProcessed
            tag).alreadyHadTag := by
  have hsum : ((countMutations lines).1 : Int) + (countMutations lines).2
      = lines.length := by
    exact_mod_cast countMutations_sum lines
  simp only [processBulkOperationResults, if_true]
  split <;> omega

/-- C1 (witness): the amended invariant at a concrete two-line stream
with one malformed line and `totalFiltered = 5`. -/
theorem C1_total_invariant_amended_witness :
    ((([ResultLine.malformed, .parsed false 0] : List ResultLine).length : Int)
        ≤ 5)
    ∧ (processBulkOperationResults true [.malformed, .parsed false 0] 5 0
          "sale").total
        = (processBulkOperationResults true [.malformed, .parsed false 0] 5 0
            "sale").updated
          + (processBulkOperationResults true [.malformed, .parsed false 0] 5 0
              "sale").failed
          + (processBulkOperationResults true [.malformed, .parsed false 0] 5 0
              "sale").alreadyHadTag :=
  ⟨by decide,
   C1_total_invariant_amended [.malformed, .parsed false 0] 5 0 "sale"
     (by decide)⟩

/-- C4: for every result stream, the failure count equals the number of
lines that are malformed or parsed with a root-level error or non-empty
`userErrors` (so `failed` is at least the number of malformed lines),
and successes and failures together account for every line — no
per-line error aborts reconciliation of the rest. -/
theorem C4_reconciler_classification (lines : List ResultLine) :
    (lines.filter ResultLine.isMalformed).length ≤ (countMutations lines).2
    ∧ (countMutations lines).2 = (lines.filter lineFailed).length
    ∧ (countMutations lines).1 + (countMutations lines).2 = lines.length := by
  refine ⟨?_, ?_, countMutations_sum lines⟩
  · rw [countMutations_spec]
    exact length_filter_malformed_le lines
  · rw [countMutations_spec]

/-- C5: when the result fetch fails before any parsing, the reconciler
returns exactly the fallback summary
`{updated := 0, failed := totalProcessed,
alreadyHadTag := totalFiltered - totalProcessed, total := totalFiltered}`
for every `totalFiltered` and `totalProcessed`; and whenever any record
was actually submitted (`0 < totalProcessed`) the fallback carries a
non-zero `failed` count, distinguishing it from a genuine zero-failure
outcome. -/
theorem C5_fallback_summary (lines : List ResultLine)
    (totalFiltered totalProcessed : Int) (tag : String) :
    processBulkOperationResults false lines totalFiltered totalProcessed tag
      = { updated := 0
          alreadyHadTag := totalFiltered - totalProcessed
          didNotHaveTag := none
          failed := totalProcessed
          total := totalFiltered
          tag := tag
          action := none }
    ∧ (0 < totalProcessed →
        (processBulkOperationResults false lines totalFiltered totalProcessed
            tag).failed ≠ 0) := by
  refine ⟨rfl, fun h => ?_⟩
  simp [processBulkOperationResults]
  omega

/-- C5 (witness): the fallback at `totalFiltered = 10`,
`totalProcessed = 7` is error-bearing. -/
theorem C5_fallback_summary_witness :
    ((0 : Int) < 7)
    ∧ (processBulkOperationResults false [] 10 7 "sale").failed ≠ 0 :=
  ⟨by decide, (C5_fallback_summary [] 10 7 "sale").2 (by decide)⟩

/-- C7: every pre-run summary — for the apply and for the remove action
— has `failed = 0`, has `updated` equal to the number of mutation
records submitted, and satisfies `total = updated + alreadyHadTag`
(apply) respectively `total = updated + didNotHaveTag` (remove). -/
theorem C7_prerun_summary_invariants (allProducts : List Product)
    (TAG : String) :
    (preRunSummaryApply allProducts TAG).failed = 0
    ∧ (preRunSummaryApply allProducts TAG).updated
        = ((jsonlLinesApply allProducts TAG).length : Int)
    ∧ (preRunSummaryApply allProducts TAG).total
        = (preRunSummaryApply allProducts TAG).updated
          + (preRunSummaryApply allProducts TAG).alreadyHadTag
    ∧ (preRunSummaryRemove allProducts TAG).failed = 0
    ∧ (preRunSummaryRemove allProducts TAG).updated
        = ((jsonlLinesRemove allProducts TAG).length : Int)
    ∧ (preRunSummaryRemove allProducts TAG).didNotHaveTag
        = some ((preRunSummaryRemove allProducts TAG).total
            - (preRunSummaryRemove allProducts TAG).updated) := by
  refine ⟨rfl, rfl, ?_, rfl, rfl, ?_⟩
  · simp only [preRunSummaryApply]
    ring
  · simp only [preRunSummaryRemove]

/-- C3: running the apply-action idempotency filter on the updated tag
sets produced by a first run with the same tag yields zero mutation
records: every previously selected entity now carries the tag verbatim,
and every excluded entity already carried it case-insensitively. -/
theorem C3_apply_idempotent (allProducts : List Product) (TAG : String)
    (_hne : allProducts ≠ []) :
    jsonlLinesApply (applyUpdatedState allProducts TAG) TAG = [] := by
  have hall : ∀ q ∈ applyUpdatedState allProducts TAG,
      hasTagCI q.tags TAG = true := by
    intro q hq
    rw [applyUpdatedState, List.mem_map] at hq
    obtain ⟨p, -, rfl⟩ := hq
    by_cases h : hasTagCI p.tags TAG = true
    · rw [if_pos h]
      exact h
    · rw [if_neg h]
      simp [hasTagCI, List.any_append]
  have hfilter : productsToUpdateApply (applyUpdatedState allProducts TAG) TAG
      = [] := by
    rw [productsToUpdateApply, List.filter_eq_nil_iff]
    intro q hq
    simp [hall q hq]
  simp [jsonlLinesApply, hfilter]

/-- C3 (witness): a singleton entity list without the tag converges
after one apply run. -/
theorem C3_apply_idempotent_witness :
    (([⟨"gid1", "t", "h", "T", ["x"]⟩] : List Product) ≠ [])
    ∧ jsonlLinesApply
        (applyUpdatedState [⟨"gid1", "t", "h", "T", ["x"]⟩] "sale") "sale"
        = [] :=
  ⟨by decide,
   C3_apply_idempotent [⟨"gid1", "t", "h", "T", ["x"]⟩] "sale" (by decide)⟩

/-- If every page before a failing request reports `hasNextPage`, the
collection loop rethrows the failure: no partial entity set survives. -/
theorem fetchRun_err_propagates (pres : List Page) (rest : List PageResult) :
    ∀ accLen : Nat, (∀ p ∈ pres, p.hasNextPage = true) →
      (fetchRun (pres.map PageResult.ok ++ PageResult.err :: rest) accLen).1
        = .error := by
  induction pres with
  | nil => intro accLen _; rfl
  | cons p ps ih =>
      intro accLen h
      have hp : p.hasNextPage = true := h p (List.mem_cons_self p ps)
      have hrec := ih (accLen + p.products.length)
        (fun q hq => h q (List.mem_cons_of_mem p hq))
      simp only [List.map_cons, List.cons_append, fetchRun, hp, if_true,
        List.append_eq]
      rw [hrec]

/-- On a successful trace — any number of pages all reporting
`hasNextPage` followed by a final page that does not — the collection
loop returns the concatenation of the pages' entity lists in arrival
order. -/
theorem fetchRun_ok_concat (pres : List Page) (last : Page) :
    ∀ accLen : Nat, (∀ p ∈ pres, p.hasNextPage = true) →
      last.hasNextPage = false →
      (fetchRun ((pres ++ [last]).map PageResult.ok) accLen).1
        = .ok (((pres ++ [last]).map Page.products).flatten) := by
  induction pres with
  | nil =>
      intro accLen _ hlast
      simp [fetchRun, hlast]
  | cons p ps ih =>
      intro accLen h hlast
      have hp : p.hasNextPage = true := h p (List.mem_cons_self p ps)
      have hrec := ih (accLen + p.products.length)
        (fun q hq => h q (List.mem_cons_of_mem p hq)) hlast
      simp only [List.cons_append, List.map_cons, fetchRun, hp, if_true,
        List.append_eq]
      rw [hrec]
      simp [List.flatten_cons]

/-- C6: for every page sequence the platform returns — any number of
pages reporting `hasNextPage` followed by a final page — the paginated
collector returns exactly the concatenation of the pages' entity lists
in arrival order (in particular a 3-page trace of sizes 250, 250, 37
yields exactly 537 entities in order); a single empty final page yields
the empty list, not an error; and a failing page request fails the
whole collection with no partial entity set. -/
theorem C6_collector_concatenation :
    (∀ (pres : List Page) (last : Page),
      (∀ p ∈ pres, p.hasNextPage = true) →
      last.hasNextPage = false →
      fetchProductsIteratively ((pres ++ [last]).map PageResult.ok)
        = .ok (((pres ++ [last]).map Page.products).flatten))
    ∧ (∀ (a b c : List Product) (ca cb cc : Option String),
      fetchProductsIteratively
        [.ok ⟨a, true, ca⟩, .ok ⟨b, true, cb⟩, .ok ⟨c, false, cc⟩]
        = .ok (a ++ b ++ c))
    ∧ (∀ (a b c : List Product) (ca cb cc : Option String),
        a.length = 250 → b.length = 250 → c.length = 37 →
        ∃ l, fetchProductsIteratively
            [.ok ⟨a, true, ca⟩, .ok ⟨b, true, cb⟩, .ok ⟨c, false, cc⟩]
            = .ok l ∧ l.length = 537)
    ∧ (∀ co : Option String,
        fetchProductsIteratively [.ok ⟨[], false, co⟩] = .ok [])
    ∧ (∀ (pres : List Page) (rest : List PageResult),
        (∀ p ∈ pres, p.hasNextPage = true) →
        fetchProductsIteratively (pres.map PageResult.ok ++ .err :: rest)
          = .error) := by
  have hthree : ∀ (a b c : List Product) (ca cb cc : Option String),
      fetchProductsIteratively
        [.ok ⟨a, true, ca⟩, .ok ⟨b, true, cb⟩, .ok ⟨c, false, cc⟩]
        = .ok (a ++ b ++ c) := by
    intro a b c ca cb cc
    have hrun : fetchProductsIteratively
        [.ok ⟨a, true, ca⟩, .ok ⟨b, true, cb⟩, .ok ⟨c, false, cc⟩]
        = .ok (a ++ (b ++ c)) := rfl
    rw [hrun, List.append_assoc]
  refine ⟨?_, hthree, ?_, ?_, ?_⟩
  · intro pres last h hlast
    exact fetchRun_ok_concat pres last 0 h hlast
  · intro a b c ca cb cc ha hb hc
    refine ⟨a ++ b ++ c, hthree a b c ca cb cc, ?_⟩
    simp [List.length_append, ha, hb, hc]
  · intro co
    rfl
  · intro pres rest h
    exact fetchRun_err_propagates pres rest 0 h

/-- C6 (witness): the general concatenation at a concrete two-page
trace of one product each, the concrete 250/250/37 trace, and a failing
second page at a concrete one-page prefix. -/
theorem C6_collector_concatenation_witness :
    fetchProductsIteratively
        [.ok ⟨[⟨"p1", "", "", "", []⟩], true, none⟩,
         .ok ⟨[⟨"p2", "", "", "", []⟩], false, none⟩]
        = .ok [⟨"p1", "", "", "", []⟩, ⟨"p2", "", "", "", []⟩]
    ∧ (∃ l, fetchProductsIteratively
        [.ok ⟨List.replicate 250 ⟨"p", "", "", "", []⟩, true, none⟩,
         .ok ⟨List.replicate 250 ⟨"p", "", "", "", []⟩, true, none⟩,
         .ok ⟨List.replicate 37 ⟨"p", "", "", "", []⟩, false, none⟩]
        = .ok l ∧ l.length = 537)
    ∧ fetchProductsIteratively
        (([⟨[], true, none⟩] : List Page).map PageResult.ok
          ++ PageResult.err :: [])
        = .error :=
  ⟨C6_collector_concatenation.1 [⟨[⟨"p1", "", "", "", []⟩], true, none⟩]
     ⟨[⟨"p2", "", "", "", []⟩], false, none⟩ (by decide) rfl,
   C6_collector_concatenation.2.2.1
     (List.replicate 250 ⟨"p", "", "", "", []⟩)
     (List.replicate 250 ⟨"p", "", "", "", []⟩)
     (List.replicate 37 ⟨"p", "", "", "", []⟩) none none none
     (List.length_replicate 250 _) (List.length_replicate 250 _)
     (List.length_replicate 37 _),
   C6_collector_concatenation.2.2.2.2 [⟨[], true, none⟩] [] (by decide)⟩

/-- C9 (counterexample): a first page of one product with
`hasNextPage = true` followed by a final page triggers two consecutive
page fetches with more pages remaining in between, yet zero delays are
performed, because the accumulated count 1 is not a multiple of
`FETCH_PAGE_LIMIT`; the claim requires a delay between every pair of
consecutive fetches. -/
theorem C9_delay_counterexample :
    fetchDelayCount
        [.ok ⟨[⟨"p1", "", "", "", []⟩], true, none⟩, .ok ⟨[], false, none⟩]
        = 0
    ∧ fetchProductsIteratively
        [.ok ⟨[⟨"p1", "", "", "", []⟩], true, none⟩, .ok ⟨[], false, none⟩]
        = .ok [⟨"p1", "", "", "", []⟩] := by
  decide

/-- C9 (amended): a 300 ms delay is performed after a fetched page only
when that page reports more pages remaining and the accumulated product
count is a multiple of `FETCH_PAGE_LIMIT` (250); after the final page
(`hasNextPage = false`) no delay is ever performed. -/
theorem C9_delay_amended (page : Page) (rest : List PageResult)
    (accLen : Nat) :
    (page.hasNextPage = false →
      fetchRun (.ok page :: rest) accLen = (.ok page.products, 0))
    ∧ (page.hasNextPage = true →
      (fetchRun (.ok page :: rest) accLen).2
        = (if (accLen + page.products.length) % FETCH_PAGE_LIMIT == 0
            then 1 else 0)
          + (fetchRun rest (accLen + page.products.length)).2) := by
  constructor
  · intro h
    simp [fetchRun, h]
  · intro h
    simp [fetchRun, h]

/-- C9 (witness): the amended statement at a final page and at a page
with more pages remaining whose accumulated count (0) is a multiple of
the page limit, so exactly one delay is performed. -/
theorem C9_delay_amended_witness :
    fetchRun [PageResult.ok ⟨[], false, none⟩] 0 = (.ok [], 0)
    ∧ (fetchRun
        (.ok ⟨[], true, none⟩ :: [.ok ⟨[], false, none⟩]) 0).2
        = (if (0 + ([] : List Product).length) % FETCH_PAGE_LIMIT == 0
            then 1 else 0)
          + (fetchRun [.ok ⟨[], false, none⟩]
              (0 + ([] : List Product).length)).2 :=
  ⟨(C9_delay_amended ⟨[], false, none⟩ [] 0).1 rfl,
   (C9_delay_amended ⟨[], true, none⟩ [.ok ⟨[], false, none⟩] 0).2 rfl⟩

/-- C2 (counterexample): a status-check request with every context
parameter absent, while the platform reports a RUNNING operation, is
not treated as "no active job": `getInitialStates` resumes polling with
the operation id and fabricates a context and a placeholder summary
from the defaults `parseInt("0") = 0` and the empty tag. -/
theorem C2_decode_counterexample :
    getInitialStates true
      { bulkOperationStatus := some ⟨"gid-op-1", "RUNNING", some 0, none⟩
        finalSummary := none }
      { checkStatus := some "true", totalFiltered := none,
        totalProcessed := none, appliedTag := none }
      = { initialBulkOpId := some "gid-op-1"
          initialBulkOpContext := some ⟨some 0, some 0, ""⟩
          initialSummary := some ⟨some 0, some 0, some 0, some 0, ""⟩ } := by
  decide

/-- C2 (amended): on the client, the decode resumes polling exactly
when the URL carries `checkStatus=true`, the loader reports an
operation with a truthy id, and its status is non-terminal — regardless
of whether the three context values are present; absent values are
decoded from the defaults "0"/"0"/"" and a placeholder summary is built
from them (a corrupted numeric value decodes to NaN rather than
deactivating the job).  In every other case — terminal status, absent
or different `checkStatus`, empty id, or no reported operation — the
idle no-active-job triple is returned, passing through only the
loader's final summary.  The server loader does surface no final
summary when the applied tag is absent. -/
theorem C2_decode_amended :
    (∀ (loaderData : LoaderDataView) (st : BulkOperationStatus)
       (urlParams : UrlParams),
      loaderData.bulkOperationStatus = some st →
      urlParams.checkStatus = some "true" →
      st.id ≠ "" →
      st.status ≠ "COMPLETED" → st.status ≠ "FAILED" → st.status ≠ "CANCELED" →
      getInitialStates true loaderData urlParams
        = { initialBulkOpId := some st.id
            initialBulkOpContext := some
              { totalFiltered := jsParseInt (jsOr urlParams.totalFiltered "0")
                totalProcessed := jsParseInt (jsOr urlParams.totalProcessed "0")
                tag := jsOr urlParams.appliedTag "" }
            initialSummary := some
              { updated := jsParseInt (jsOr urlParams.totalProcessed "0")
                alreadyHadTag :=
                  jsSub (jsParseInt (jsOr urlParams.totalFiltered "0"))
                    (jsParseInt (jsOr urlParams.totalProcessed "0"))
                failed := some 0
                total := jsParseInt (jsOr urlParams.totalFiltered "0")
                tag := jsOr urlParams.appliedTag "" } })
    ∧ (∀ (loaderData : LoaderDataView) (urlParams : UrlParams),
        (¬ ∃ st, loaderData.bulkOperationStatus = some st
            ∧ urlParams.checkStatus = some "true"
            ∧ st.id ≠ ""
            ∧ st.status ≠ "COMPLETED"
            ∧ st.status ≠ "FAILED"
            ∧ st.status ≠ "CANCELED") →
        getInitialStates true loaderData urlParams
          = { initialBulkOpId := none
              initialBulkOpContext := none
              initialSummary := loaderData.finalSummary })
    ∧ (∀ (bulkOpStatus : Option BulkOperationStatus) (fetchSucceeded : Bool)
         (lines : List ResultLine) (totalFiltered totalProcessed : Int),
        loaderFinalSummary bulkOpStatus fetchSucceeded lines totalFiltered
          totalProcessed "" = none) := by
  refine ⟨?_, ?_, ?_⟩
  · intro loaderData st urlParams hst hcs hid h1 h2 h3
    simp [getInitialStates, hst, hcs, hid, h1, h2, h3]
  · intro loaderData urlParams hno
    cases hst : loaderData.bulkOperationStatus with
    | none => simp [getInitialStates, hst]
    | some st =>
        by_cases hcond : ((urlParams.checkStatus == some "true")
            && st.id != "" && st.status != "COMPLETED"
            && st.status != "FAILED" && st.status != "CANCELED") = true
        · exfalso
          simp only [Bool.and_eq_true, bne_iff_ne, beq_iff_eq, ne_eq]
            at hcond
          exact hno ⟨st, hst, by tauto, by tauto, by tauto, by tauto,
            by tauto⟩
        · rw [Bool.not_eq_true] at hcond
          simp [getInitialStates, hst, hcond]
  · intro bulkOpStatus fetchSucceeded lines totalFiltered totalProcessed
    cases bulkOpStatus with
    | none => rfl
    | some st => simp [loaderFinalSummary]

/-- C2 (witness): the amended decode at a CREATED operation with all
three context parameters present, and the idle triple at a COMPLETED
(terminal) operation with the same parameters. -/
theorem C2_decode_amended_witness :
    (getInitialStates true
      { bulkOperationStatus := some ⟨"gid-op-2", "CREATED", some 0, none⟩
        finalSummary := none }
      { checkStatus := some "true", totalFiltered := some "10",
        totalProcessed := some "7", appliedTag := some "sale" }
      = { initialBulkOpId := some "gid-op-2"
          initialBulkOpContext := some ⟨some 10, some 7, "sale"⟩
          initialSummary := some ⟨some 7, some 3, some 0, some 10, "sale"⟩ })
    ∧ getInitialStates true
      { bulkOperationStatus := some ⟨"gid-op-2", "COMPLETED", some 0, none⟩
        finalSummary := none }
      { checkStatus := some "true", totalFiltered := some "10",
        totalProcessed := some "7", appliedTag := some "sale" }
      = { initialBulkOpId := none
          initialBulkOpContext := none
          initialSummary := none } :=
  ⟨(C2_decode_amended.1
     { bulkOperationStatus := some ⟨"gid-op-2", "CREATED", some 0, none⟩
       finalSummary := none }
     ⟨"gid-op-2", "CREATED", some 0, none⟩
     { checkStatus := some "true", totalFiltered := some "10",
       totalProcessed := some "7", appliedTag := some "sale" }
     rfl rfl (by decide) (by decide) (by decide) (by decide)).trans (by decide),
   C2_decode_amended.2.1
     { bulkOperationStatus := some ⟨"gid-op-2", "COMPLETED", some 0, none⟩
       finalSummary := none }
     { checkStatus := some "true", totalFiltered := some "10",
       totalProcessed := some "7", appliedTag := some "sale" }
     (by
       intro hex
       obtain ⟨st, hst, -, -, hterm, -, -⟩ := hex
       have hrec : st = ⟨"gid-op-2", "COMPLETED", some 0, none⟩ := by
         simpa using hst.symm
       subst hrec
       exact hterm rfl)⟩

/-- C8 (counterexample): when the planned mutation list is empty
because no entity matched the filters at all, the action does not
return a success outcome with a pre-run summary: it returns
`success = false` with an error message and no summary. -/
theorem C8_empty_plan_counterexample :
    (applyTagBranch (Except.ok []) "sale" (Except.ok "gid-op-3")).success
       = false
    ∧ (applyTagBranch (Except.ok []) "sale" (Except.ok "gid-op-3")).error
        = some "No products found matching your filters to tag."
    ∧ (applyTagBranch (Except.ok []) "sale"
        (Except.ok "gid-op-3")).preRunSummary = none := by
  decide

/-- C8 (amended): when the planned mutation list is empty because every
matched entity already carries the tag (at least one entity matched),
the action returns a success outcome with the pre-run summary and no
job handle, for every submission outcome; but when no entity matched
the filters at all it returns a failure with an error message and no
summary. -/
theorem C8_empty_plan_amended :
    (∀ (allProducts : List Product) (TAG : String)
       (submit : Except String String),
      allProducts ≠ [] →
      jsonlLinesApply allProducts TAG = [] →
      applyTagBranch (Except.ok allProducts) TAG submit
        = { success := true, error := none, bulkOperationId := none,
            preRunSummary := some (preRunSummaryApply allProducts TAG) })
    ∧ (∀ (TAG : String) (submit : Except String String),
        applyTagBranch (Except.ok []) TAG submit
          = { success := false
              error := some "No products found matching your filters to tag."
              bulkOperationId := none
              preRunSummary := none }) := by
  constructor
  · intro allProducts TAG submit hne hplan
    have hlen : (allProducts.length == 0) = false := by
      cases allProducts with
      | nil => exact absurd rfl hne
      | cons hd tl => rfl
    simp [applyTagBranch, hlen, hplan]
  · intro TAG submit
    rfl

/-- C8 (witness): a singleton entity already carrying the tag
(case-insensitively) yields the success outcome with no job handle. -/
theorem C8_empty_plan_amended_witness :
    applyTagBranch (Except.ok [⟨"p1", "", "", "", ["Sale"]⟩]) "sale"
        (Except.ok "gid-op-4")
      = { success := true, error := none, bulkOperationId := none,
          preRunSummary :=
            some (preRunSummaryApply [⟨"p1", "", "", "", ["Sale"]⟩] "sale") } :=
  C8_empty_plan_amended.1 [⟨"p1", "", "", "", ["Sale"]⟩] "sale"
    (Except.ok "gid-op-4") (by decide) (by decide)

/-- Any pre-run summary the apply branch returns carries the branch's
tag. -/
theorem applyTagBranch_tag (fetched : Except String (List Product))
    (TAG : String) (submit : Except String String) (s : Summary)
    (h : (applyTagBranch fetched TAG submit).preRunSummary = some s) :
    s.tag = TAG := by
  cases fetched with
  | error msg => simp [applyTagBranch] at h
  | ok allProducts =>
      by_cases hlen : (allProducts.length == 0) = true
      · simp [applyTagBranch, hlen] at h
      · by_cases hplan : ((jsonlLinesApply allProducts TAG).length == 0) = true
        · simp [applyTagBranch, hlen, hplan] at h
          rw [← h]
          rfl
        · cases submit with
          | ok opId =>
              simp [applyTagBranch, hlen, hplan] at h
              rw [← h]
              rfl
          | error msg => simp [applyTagBranch, hlen, hplan] at h

/-- Any pre-run summary the remove branch returns carries the branch's
tag. -/
theorem removeTagBranch_tag (fetched : Except String (List Product))
    (TAG : String) (submit : Except String String) (s : Summary)
    (h : (removeTagBranch fetched TAG submit).preRunSummary = some s) :
    s.tag = TAG := by
  cases fetched with
  | error msg => simp [removeTagBranch] at h
  | ok allProducts =>
      by_cases hlen : (allProducts.length == 0) = true
      · simp [removeTagBranch, hlen] at h
      · by_cases hplan : ((jsonlLinesRemove allProducts TAG).length == 0) = true
        · simp [removeTagBranch, hlen, hplan] at h
          rw [← h]
          rfl
        · cases submit with
          | ok opId =>
              simp [removeTagBranch, hlen, hplan] at h
              rw [← h]
              rfl
          | error msg => simp [removeTagBranch, hlen, hplan] at h

/-- C10: a missing, empty, or whitespace-only tag makes the action
return `{success := false, error := "Tag name cannot be empty."}`
whatever the intent, the filters, and the outcomes of the product fetch
and the submission would have been — no external call influences the
result; and with a valid tag, every pre-run summary the action returns
carries the trimmed input tag. -/
theorem C10_tag_validation :
    (∀ (actionIntent : String) (filters : FilterState)
       (fetched : Except String (List Product))
       (submit : Except String String),
      action none actionIntent filters fetched submit
        = { success := false, error := some "Tag name cannot be empty.",
            bulkOperationId := none, preRunSummary := none })
    ∧ (∀ (raw : String), jsTrim raw = "" →
        ∀ (actionIntent : String) (filters : FilterState)
          (fetched : Except String (List Product))
          (submit : Except String String),
          action (some raw) actionIntent filters fetched submit
            = { success := false, error := some "Tag name cannot be empty.",
                bulkOperationId := none, preRunSummary := none })
    ∧ (∀ (raw actionIntent : String) (filters : FilterState)
         (fetched : Except String (List Product))
         (submit : Except String String) (s : Summary),
        (action (some raw) actionIntent filters fetched submit).preRunSummary
          = some s →
        s.tag = jsTrim raw) := by
  refine ⟨fun _ _ _ _ => rfl, ?_, ?_⟩
  · intro raw hraw actionIntent filters fetched submit
    simp [action, hraw]
  · intro raw actionIntent filters fetched submit s h
    by_cases hraw : (jsTrim raw == "") = true
    · simp [action, hraw] at h
    · simp only [action, hraw, if_false, Bool.false_eq_true] at h
      by_cases hApply : (actionIntent == "applyTag") = true
      · simp only [hApply, if_true] at h
        cases hq : buildProductQuery filters with
        | none => rw [hq] at h; simp at h
        | some q =>
            rw [hq] at h
            exact applyTagBranch_tag fetched (jsTrim raw) submit s h
      · simp only [hApply, Bool.false_eq_true, if_false] at h
        by_cases hRemove : (actionIntent == "removeTag") = true
        · simp only [hRemove, if_true] at h
          cases hq : buildProductQuery filters with
          | none => rw [hq] at h; simp at h
          | some q =>
              rw [hq] at h
              exact removeTagBranch_tag fetched (jsTrim raw) submit s h
        · simp only [hRemove, Bool.false_eq_true, if_false] at h
          simp at h

/-- C10 (witness): a whitespace-only tag is rejected whatever the
external outcomes, and a tag " sale " is trimmed to "sale" in the
summary the action returns. -/
theorem C10_tag_validation_witness :
    action (some "   ") "applyTag" ⟨"shirt", "", ""⟩ (Except.ok [])
        (Except.ok "gid-op-5")
      = { success := false, error := some "Tag name cannot be empty.",
          bulkOperationId := none, preRunSummary := none }
    ∧ (preRunSummaryApply [⟨"p1", "", "", "", ["x"]⟩] "sale").tag
        = jsTrim " sale " :=
  ⟨C10_tag_validation.2.1 "   " (by decide) "applyTag" ⟨"shirt", "", ""⟩
     (Except.ok []) (Except.ok "gid-op-5"),
   C10_tag_validation.2.2 " sale " "applyTag" ⟨"shirt", "", ""⟩
     (Except.ok [⟨"p1", "", "", "", ["x"]⟩]) (Except.ok "gid-op-5")
     (preRunSummaryApply [⟨"p1", "", "", "", ["x"]⟩] "sale") (by decide)⟩

end Tagger
